import Mathlib

set_option maxRecDepth 8192

/-!
Verification development for the `bay-wheels-py` repository
(`src/bay_wheels/client.py` and `scripts/test_client.py`).

The client's three authenticated operations (`list_stations`,
`create_reservation`, `cancel_reservation`) are embedded as pure functions
from the client's token state and the HTTP response the transport would
return to a result together with the number of network requests issued.
JSON payloads are embedded as an inductive `JValue` (integers exactly;
float literals by their exact decimal value, plus the `NaN`/`Infinity`
constants — binary float rounding, arithmetic and formatting are not
modelled), decoded by an executable
recursive-descent parser modelling Python `json.loads`, and response bodies
are byte lists decoded by executable UTF-8 decoders (strict, and lenient
with undecodable sequences dropped, modelling `bytes.decode("utf-8",
errors="ignore")`).

Python exceptions are embedded as `PyExc`; exceptions the source does not
catch surface as `BWError.uncaught`.  `response.json()` of the transport
(an external collaborator) is modelled as: decode the body bytes as UTF-8
and parse them as JSON, any failure being a `json.JSONDecodeError`.
-/

/-- A JSON value as produced by Python `json.loads`: objects keep insertion
order with duplicate keys collapsed (later value wins).  Plain integers are
`num`; a number literal with a fraction or exponent part (a Python float)
is `fnum m e`, recording its exact decimal value `m * 10 ^ e`, and the
non-standard constants accepted by `json.loads` are `fnan` and `finf` —
IEEE-754 rounding, arithmetic and formatting of floats are not modelled. -/
inductive JValue where
  | null
  | bool (b : Bool)
  | num (n : Int)
  | fnum (m : Int) (e : Int)
  | fnan
  | finf (neg : Bool)
  | str (s : String)
  | arr (elems : List JValue)
  | obj (members : List (String × JValue))

/-- Python exceptions that can arise in the embedded code paths. -/
inductive PyExc where
  | jsonDecodeError (msg : String)
  | typeError (msg : String)
  | attributeError (msg : String)
  | keyError (msg : String)
  | reservationExc (msg : String)

/-- `str(e)` for an embedded Python exception. -/
def pyExcText : PyExc → String
  | .jsonDecodeError m => m
  | .typeError m => m
  | .attributeError m => m
  | .keyError m => m
  | .reservationExc m => m

/-- The error outcomes of a client operation: the three exception classes of
`bay_wheels.exceptions` raised by `client.py`, plus `uncaught` for Python
exceptions that escape the operation unwrapped. -/
inductive BWError where
  | authenticationError (msg : String)
  | bayWheelsError (msg : String)
  | reservationError (msg : String)
  | uncaught (e : PyExc)

/-- Modelled from the spec (section 3): the `Station` record of the missing
`models.py`.  Coordinates are the JSON numerics of the feature geometry
(integers in this model). -/
structure Station where
  id : String
  name : Option String
  ebikes_available : Int
  bikes_available : Int
  docks_available : Int
  lat : Int
  lon : Int

/-- Modelled from the spec (section 3): the `Reservation` record of the
missing `models.py`.  `status` is stored exactly as taken from the decoded
payload (Python performs no conversion on it), hence a `JValue`. -/
structure Reservation where
  ride_id : String
  status : JValue
  station_id : String

/-- An HTTP response from the transport: status code and raw body bytes. -/
structure HttpResponse where
  status_code : Nat
  content : List Nat

/-- The `\x7b` character (left curly brace). -/
def lbrace : Char := Char.ofNat 123

/-- The `\x7d` character (right curly brace). -/
def rbrace : Char := Char.ofNat 125

/-- JSON whitespace accepted by Python `json.loads`. -/
def isJsonWS (c : Char) : Bool :=
  c == ' ' || c == '\t' || c == '\n' || c == '\r'

/-- Drop leading JSON whitespace. -/
def skipWS (cs : List Char) : List Char :=
  cs.dropWhile isJsonWS

/-- Value of a hexadecimal digit. -/
def hexVal (c : Char) : Option Nat :=
  if c.isDigit then some (c.toNat - 48)
  else if 97 ≤ c.toNat && c.toNat ≤ 102 then some (c.toNat - 87)
  else if 65 ≤ c.toNat && c.toNat ≤ 70 then some (c.toNat - 55)
  else none

/-- Parse the rest of a JSON string literal (after the opening quote),
returning its characters and the input after the closing quote.  JSON
escapes are handled; surrogate pairs are combined; lone surrogates are
outside the model and rejected. -/
def parseStrAux : List Char → Option (List Char × List Char)
  | [] => none
  | c :: rest =>
    if c == '"' then some ([], rest)
    else if c == '\\' then
      match rest with
      | [] => none
      | e :: r2 =>
        if e == '"' then (parseStrAux r2).map (fun p => ('"' :: p.1, p.2))
        else if e == '\\' then (parseStrAux r2).map (fun p => ('\\' :: p.1, p.2))
        else if e == '/' then (parseStrAux r2).map (fun p => ('/' :: p.1, p.2))
        else if e == 'b' then (parseStrAux r2).map (fun p => (Char.ofNat 8 :: p.1, p.2))
        else if e == 'f' then (parseStrAux r2).map (fun p => (Char.ofNat 12 :: p.1, p.2))
        else if e == 'n' then (parseStrAux r2).map (fun p => ('\n' :: p.1, p.2))
        else if e == 'r' then (parseStrAux r2).map (fun p => ('\r' :: p.1, p.2))
        else if e == 't' then (parseStrAux r2).map (fun p => ('\t' :: p.1, p.2))
        else if e == 'u' then
          match r2 with
          | h1 :: h2 :: h3 :: h4 :: r3 =>
            match hexVal h1, hexVal h2, hexVal h3, hexVal h4 with
            | some a, some b, some c2, some d =>
              let n := a * 4096 + b * 256 + c2 * 16 + d
              if n < 0xD800 || 0xDFFF < n then
                (parseStrAux r3).map (fun p => (Char.ofNat n :: p.1, p.2))
              else if n ≤ 0xDBFF then
                match r3 with
                | s1 :: s2 :: g1 :: g2 :: g3 :: g4 :: r4 =>
                  if s1 == '\\' && s2 == 'u' then
                    match hexVal g1, hexVal g2, hexVal g3, hexVal g4 with
                    | some a2, some b2, some c3, some d2 =>
                      let lo := a2 * 4096 + b2 * 256 + c3 * 16 + d2
                      if 0xDC00 ≤ lo && lo ≤ 0xDFFF then
                        let cp := 0x10000 + (n - 0xD800) * 1024 + (lo - 0xDC00)
                        (parseStrAux r4).map (fun p => (Char.ofNat cp :: p.1, p.2))
                      else none
                    | _, _, _, _ => none
                  else none
                | _ => none
              else none
            | _, _, _, _ => none
          | _ => none
        else none
    else if c.toNat < 32 then none
    else (parseStrAux rest).map (fun p => (c :: p.1, p.2))

/-- Parse a JSON string literal body, returning the decoded `String`. -/
def parseStringBody (cs : List Char) : Option (String × List Char) :=
  (parseStrAux cs).map (fun p => (String.mk p.1, p.2))

/-- Numeric value of a digit list. -/
def natOfDigits (ds : List Char) : Nat :=
  ds.foldl (fun a c => a * 10 + (c.toNat - 48)) 0

/-- Parse a JSON natural number (no leading zeros, as in Python json). -/
def parseNatNum : List Char → Option (Nat × List Char)
  | [] => none
  | c :: rest =>
    if c == '0' then some (0, rest)
    else if c.isDigit then
      let p := rest.span Char.isDigit
      some (natOfDigits (c :: p.1), p.2)
    else none

/-- Parse a JSON number per the grammar `json.loads` implements
(`(-?(?:0|[1-9]\d*))(\.\d+)?([eE][-+]?\d+)?`): an integer when neither a
fraction nor an exponent part is present, otherwise a float recorded by its
exact decimal value `m * 10 ^ e`. -/
def parseJNumber (cs : List Char) : Option (JValue × List Char) :=
  let p0 : Bool × List Char :=
    match cs with
    | '-' :: r => (true, r)
    | _ => (false, cs)
  match parseNatNum p0.2 with
  | none => none
  | some (ip, r1) =>
    let pf : Option (List Char × List Char) :=
      match r1 with
      | '.' :: d :: rr =>
        if d.isDigit then
          let q := rr.span Char.isDigit
          some (d :: q.1, q.2)
        else none
      | _ => none
    let r2 := match pf with | some q => q.2 | none => r1
    let pe : Option (Int × List Char) :=
      match r2 with
      | e :: rr =>
        if e == 'e' || e == 'E' then
          match rr with
          | '+' :: d :: rr2 =>
            if d.isDigit then
              let q := rr2.span Char.isDigit
              some ((natOfDigits (d :: q.1) : Int), q.2)
            else none
          | '-' :: d :: rr2 =>
            if d.isDigit then
              let q := rr2.span Char.isDigit
              some (-(natOfDigits (d :: q.1) : Int), q.2)
            else none
          | d :: rr2 =>
            if d.isDigit then
              let q := rr2.span Char.isDigit
              some ((natOfDigits (d :: q.1) : Int), q.2)
            else none
          | [] => none
        else none
      | [] => none
    if pf.isNone && pe.isNone then
      some (.num (if p0.1 then -(ip : Int) else (ip : Int)), r1)
    else
      let fds := match pf with | some q => q.1 | none => []
      let mant : Nat := ip * 10 ^ fds.length + natOfDigits fds
      let m : Int := if p0.1 then -(mant : Int) else (mant : Int)
      let ex : Int := (match pe with | some q => q.1 | none => 0) - (fds.length : Int)
      let r3 := match pe with | some q => q.2 | none => r2
      some (.fnum m ex, r3)

/-- Insert a key/value pair into an association list, replacing the value at
an existing key in place (Python dict update semantics). -/
def insertKV : List (String × JValue) → String → JValue → List (String × JValue)
  | [], k, v => [(k, v)]
  | (k2, v2) :: rest, k, v =>
    if k2 == k then (k2, v) :: rest else (k2, v2) :: insertKV rest k v

/-- Collapse duplicate keys of parsed object members: first occurrence keeps
its position, the last value wins (Python dict construction). -/
def dedupKV (ms : List (String × JValue)) : List (String × JValue) :=
  ms.foldl (fun acc kv => insertKV acc kv.1 kv.2) []

/-- Intermediate results of the JSON parser modes. -/
inductive PRes where
  | pv (v : JValue)
  | pm (ms : List (String × JValue))
  | pe (vs : List JValue)

/-- Fueled recursive-descent JSON parser modelling Python `json.loads`.
Modes: 0 = value, 1 = object members, 2 = array elements,
3 = object body after the opening brace, 4 = array body after `[`. -/
def pjson : Nat → Nat → List Char → Option (PRes × List Char)
  | 0, _, _ => none
  | f + 1, mode, cs =>
    if mode == 0 then
      match skipWS cs with
      | [] => none
      | c :: rest =>
        if c == lbrace then
          match pjson f 3 rest with
          | some (.pv v, r) => some (.pv v, r)
          | _ => none
        else if c == '[' then
          match pjson f 4 rest with
          | some (.pv v, r) => some (.pv v, r)
          | _ => none
        else if c == '"' then
          (parseStringBody rest).map (fun p => (.pv (.str p.1), p.2))
        else if c == 't' then
          match rest with
          | 'r' :: 'u' :: 'e' :: r => some (.pv (.bool true), r)
          | _ => none
        else if c == 'f' then
          match rest with
          | 'a' :: 'l' :: 's' :: 'e' :: r => some (.pv (.bool false), r)
          | _ => none
        else if c == 'n' then
          match rest with
          | 'u' :: 'l' :: 'l' :: r => some (.pv .null, r)
          | _ => none
        else if c == 'N' then
          match rest with
          | 'a' :: 'N' :: r => some (.pv .fnan, r)
          | _ => none
        else if c == 'I' then
          match rest with
          | 'n' :: 'f' :: 'i' :: 'n' :: 'i' :: 't' :: 'y' :: r =>
            some (.pv (.finf false), r)
          | _ => none
        else if c == '-' then
          match rest with
          | 'I' :: 'n' :: 'f' :: 'i' :: 'n' :: 'i' :: 't' :: 'y' :: r =>
            some (.pv (.finf true), r)
          | _ => (parseJNumber (c :: rest)).map (fun p => (.pv p.1, p.2))
        else if c.isDigit then
          (parseJNumber (c :: rest)).map (fun p => (.pv p.1, p.2))
        else none
    else if mode == 3 then
      match skipWS cs with
      | [] => none
      | c :: r2 =>
        if c == rbrace then some (.pv (.obj []), r2)
        else
          match pjson f 1 (c :: r2) with
          | some (.pm ms, r) => some (.pv (.obj (dedupKV ms)), r)
          | _ => none
    else if mode == 1 then
      match skipWS cs with
      | '"' :: r =>
        (match parseStringBody r with
         | none => none
         | some (k, r1) =>
           match skipWS r1 with
           | ':' :: r2 =>
             (match pjson f 0 r2 with
              | some (.pv v, r3) =>
                (match skipWS r3 with
                 | ',' :: r4 =>
                   (match pjson f 1 r4 with
                    | some (.pm ms, r5) => some (.pm ((k, v) :: ms), r5)
                    | _ => none)
                 | c :: r4 => if c == rbrace then some (.pm [(k, v)], r4) else none
                 | [] => none)
              | _ => none)
           | _ => none)
      | _ => none
    else if mode == 4 then
      match skipWS cs with
      | [] => none
      | c :: r2 =>
        if c == ']' then some (.pv (.arr []), r2)
        else
          match pjson f 2 (c :: r2) with
          | some (.pe vs, r) => some (.pv (.arr vs), r)
          | _ => none
    else if mode == 2 then
      match pjson f 0 cs with
      | some (.pv v, r1) =>
        (match skipWS r1 with
         | ',' :: r2 =>
           (match pjson f 2 r2 with
            | some (.pe vs, r3) => some (.pe (v :: vs), r3)
            | _ => none)
         | ']' :: r2 => some (.pe [v], r2)
         | _ => none)
      | _ => none
    else none

/-- Python `json.loads` on text: parse one JSON value and require only
whitespace to remain. -/
def jsonParse (cs : List Char) : Option JValue :=
  match pjson (4 * cs.length + 8) 0 cs with
  | some (.pv v, rest) => if (skipWS rest).isEmpty then some v else none
  | _ => none

/-- Is a byte a UTF-8 continuation byte? -/
def contByte (b : Nat) : Bool := 0x80 ≤ b && b ≤ 0xBF

/-- Valid second byte of a three-byte UTF-8 sequence (excludes overlong
encodings and surrogates, as Python does). -/
def cont3ok (b b2 : Nat) : Bool :=
  if b == 0xE0 then 0xA0 ≤ b2 && b2 ≤ 0xBF
  else if b == 0xED then 0x80 ≤ b2 && b2 ≤ 0x9F
  else contByte b2

/-- Valid second byte of a four-byte UTF-8 sequence (excludes overlong
encodings and code points above U+10FFFF). -/
def cont4ok (b b2 : Nat) : Bool :=
  if b == 0xF0 then 0x90 ≤ b2 && b2 ≤ 0xBF
  else if b == 0xF4 then 0x80 ≤ b2 && b2 ≤ 0x8F
  else contByte b2

/-- Strict UTF-8 decoding of a byte list, modelling `bytes.decode("utf-8")`:
any invalid sequence makes the whole decoding fail. -/
def utf8DecodeStrict : List Nat → Option (List Char)
  | [] => some []
  | b :: bs =>
    if b ≤ 0x7F then (utf8DecodeStrict bs).map (fun cs => Char.ofNat b :: cs)
    else if b < 0xC2 then none
    else if b ≤ 0xDF then
      match bs with
      | b2 :: bs2 =>
        if contByte b2 then
          (utf8DecodeStrict bs2).map
            (fun cs => Char.ofNat ((b - 0xC0) * 64 + (b2 - 0x80)) :: cs)
        else none
      | [] => none
    else if b ≤ 0xEF then
      match bs with
      | b2 :: b3 :: bs3 =>
        if cont3ok b b2 && contByte b3 then
          (utf8DecodeStrict bs3).map
            (fun cs => Char.ofNat ((b - 0xE0) * 4096 + (b2 - 0x80) * 64 + (b3 - 0x80)) :: cs)
        else none
      | _ => none
    else if b ≤ 0xF4 then
      match bs with
      | b2 :: b3 :: b4 :: bs4 =>
        if cont4ok b b2 && contByte b3 && contByte b4 then
          (utf8DecodeStrict bs4).map
            (fun cs => Char.ofNat ((b - 0xF0) * 262144 + (b2 - 0x80) * 4096 +
              (b3 - 0x80) * 64 + (b4 - 0x80)) :: cs)
        else none
      | _ => none
    else none

/-- Fueled lenient UTF-8 decoding, modelling `bytes.decode("utf-8",
errors="ignore")`: the bytes of an invalid (maximal sub)sequence are
dropped and decoding continues.  Every step consumes at least one byte, so
fuel equal to the byte count suffices. -/
def utf8DecodeIgnoreF : Nat → List Nat → List Char
  | 0, _ => []
  | _, [] => []
  | f + 1, b :: bs =>
    if b ≤ 0x7F then Char.ofNat b :: utf8DecodeIgnoreF f bs
    else if b < 0xC2 then utf8DecodeIgnoreF f bs
    else if b ≤ 0xDF then
      match bs with
      | b2 :: bs2 =>
        if contByte b2 then
          Char.ofNat ((b - 0xC0) * 64 + (b2 - 0x80)) :: utf8DecodeIgnoreF f bs2
        else utf8DecodeIgnoreF f bs
      | [] => []
    else if b ≤ 0xEF then
      match bs with
      | b2 :: bs2 =>
        if cont3ok b b2 then
          match bs2 with
          | b3 :: bs3 =>
            if contByte b3 then
              Char.ofNat ((b - 0xE0) * 4096 + (b2 - 0x80) * 64 + (b3 - 0x80)) ::
                utf8DecodeIgnoreF f bs3
            else utf8DecodeIgnoreF f bs2
          | [] => []
        else utf8DecodeIgnoreF f bs
      | [] => []
    else if b ≤ 0xF4 then
      match bs with
      | b2 :: bs2 =>
        if cont4ok b b2 then
          match bs2 with
          | b3 :: bs3 =>
            if contByte b3 then
              match bs3 with
              | b4 :: bs4 =>
                if contByte b4 then
                  Char.ofNat ((b - 0xF0) * 262144 + (b2 - 0x80) * 4096 +
                    (b3 - 0x80) * 64 + (b4 - 0x80)) :: utf8DecodeIgnoreF f bs4
                else utf8DecodeIgnoreF f bs3
              | [] => []
            else utf8DecodeIgnoreF f bs2
          | [] => []
        else utf8DecodeIgnoreF f bs
      | [] => []
    else utf8DecodeIgnoreF f bs

/-- `content.decode("utf-8", errors="ignore")` as a `String`. -/
def utf8DecodeIgnore (content : List Nat) : String :=
  String.mk (utf8DecodeIgnoreF (content.length + 1) content)

/-- The byte list of an ASCII string (used to build concrete bodies). -/
def asciiBytes (s : String) : List Nat :=
  s.toList.map Char.toNat

/-- First-match lookup in an association list (with `dedupKV` applied at
parse time, keys are unique so this is Python dict lookup). -/
def lookupKV : List (String × JValue) → String → Option JValue
  | [], _ => none
  | (k, v) :: rest, key => if k == key then some v else lookupKV rest key

/-- Total `dict.get`-style lookup: objects look up the key with a default;
every other value yields the default. -/
def jGetD : JValue → String → JValue → JValue
  | .obj kvs, k, d => (lookupKV kvs k).getD d
  | _, _, d => d

/-- The single-quote character. -/
def sqChar : Char := Char.ofNat 39

/-- Hexadecimal digit character (lowercase). -/
def hexDigitChar (n : Nat) : Char :=
  if n < 10 then Char.ofNat (48 + n) else Char.ofNat (87 + n)

/-- Escaping of one character inside a single-quoted Python `repr`. -/
def pyCharEscape (c : Char) : List Char :=
  if c == sqChar then ['\\', sqChar]
  else if c == '\\' then ['\\', '\\']
  else if c == '\n' then ['\\', 'n']
  else if c == '\r' then ['\\', 'r']
  else if c == '\t' then ['\\', 't']
  else if c.toNat < 32 then
    ['\\', 'x', hexDigitChar (c.toNat / 16), hexDigitChar (c.toNat % 16)]
  else [c]

/-- Python `repr` of a single-quoted string (the quote-choice refinement of
Python for strings containing a single quote is not modelled). -/
def pyStrRepr (s : String) : String :=
  String.mk (sqChar :: (s.toList.flatMap pyCharEscape) ++ [sqChar])

mutual

/-- Python `repr` of a decoded JSON value (floats print in a canonical
mantissa-exponent form: their binary shortest-roundtrip formatting is not
modelled, and no claim evaluates it). -/
def pyRepr : JValue → String
  | .null => "None"
  | .bool true => "True"
  | .bool false => "False"
  | .num n => toString n
  | .fnum m e => toString m ++ "e" ++ toString e
  | .fnan => "nan"
  | .finf true => "-inf"
  | .finf false => "inf"
  | .str s => pyStrRepr s
  | .arr xs => "[" ++ pyReprElems xs ++ "]"
  | .obj kvs => "\x7b" ++ pyReprMembers kvs ++ "\x7d"

/-- Comma-joined `repr`s of list elements. -/
def pyReprElems : List JValue → String
  | [] => ""
  | [x] => pyRepr x
  | x :: y :: xs => pyRepr x ++ ", " ++ pyReprElems (y :: xs)

/-- Comma-joined `repr`s of dict members. -/
def pyReprMembers : List (String × JValue) → String
  | [] => ""
  | [(k, v)] => pyStrRepr k ++ ": " ++ pyRepr v
  | (k, v) :: m :: rest => pyStrRepr k ++ ": " ++ pyRepr v ++ ", " ++ pyReprMembers (m :: rest)

end

/-- Python `str()` of a decoded JSON value: strings are returned as-is,
everything else via `repr`-style printing. -/
def pythonStr (v : JValue) : String :=
  match v with
  | .str s => s
  | _ => pyRepr v

/-- Does a character list start with another? -/
def listStartsWith : List Char → List Char → Bool
  | [], _ => true
  | _ :: _, [] => false
  | a :: as, b :: bs => a == b && listStartsWith as bs

/-- Does a character list contain another as a contiguous run? -/
def listContainsSub : List Char → List Char → Bool
  | needle, [] => needle.isEmpty
  | needle, c :: rest =>
    listStartsWith needle (c :: rest) || listContainsSub needle rest

/-- Substring test on strings (Python `needle in haystack`). -/
def strContainsSub (needle hay : String) : Bool :=
  listContainsSub needle.toList hay.toList

/-- Python `key in value` for a decoded JSON value: key test on dicts,
element equality on lists, substring test on strings, `TypeError`
otherwise. -/
def pyIn (k : String) : JValue → Except PyExc Bool
  | .obj kvs => .ok (lookupKV kvs k).isSome
  | .arr xs =>
    .ok (xs.any fun x =>
      match x with
      | .str s => s == k
      | _ => false)
  | .str s => .ok (strContainsSub k s)
  | _ => .error (.typeError "argument is not iterable")

/-- Python `value[key]` with a string key: dict lookup, `TypeError` on any
non-dict value. -/
def pySubscript : JValue → String → Except PyExc JValue
  | .obj kvs, k =>
    match lookupKV kvs k with
    | some v => .ok v
    | none => .error (.keyError k)
  | .str _, _ => .error (.typeError "string indices must be integers")
  | .arr _, _ => .error (.typeError "list indices must be integers")
  | _, _ => .error (.typeError "object is not subscriptable")

/-- Python `value.get(key, default)`: only dicts have `.get`; every other
value raises `AttributeError`. -/
def pyDictGetD : JValue → String → JValue → Except PyExc JValue
  | .obj kvs, k, d => .ok ((lookupKV kvs k).getD d)
  | _, _, _ => .error (.attributeError "object has no attribute get")

/-- Python `json.loads` applied to a decoded JSON value: parses strings,
raises `TypeError` on any non-string argument (uncaught by the
`(json.JSONDecodeError, ValueError)` handler of `list_stations`). -/
def pyJsonLoads : JValue → Except PyExc JValue
  | .str s =>
    match jsonParse s.toList with
    | some v => .ok v
    | none => .error (.jsonDecodeError "Expecting value")
  | _ => .error (.typeError "the JSON object must be str, bytes or bytearray")

/-- Python `value == 1` on a decoded JSON value: `True == 1` and
`1.0 == 1` hold in Python.  A float compares by its exact decimal value
`m * 10 ^ e` (decimal literals within half an ulp of 1.0 but unequal to it
are float-rounding territory outside the model); `nan` and the infinities
never equal 1. -/
def pyEqOne : JValue → Bool
  | .num n => n == 1
  | .fnum m e => if 0 ≤ e then m * (10 : Int) ^ e.toNat == 1 else m == (10 : Int) ^ (-e).toNat
  | .bool b => b
  | _ => false

/-- Is the `type` field value the string `"FeatureCollection"` (Python
`data.get("type") != "FeatureCollection"` is the negation)? -/
def isFCtype : JValue → Bool
  | .str s => s == "FeatureCollection"
  | _ => false

/-- `response.json()` of the transport (an external collaborator, modelled
as a black box over the body bytes): strict UTF-8 decoding followed by JSON
parsing; any failure surfaces as `json.JSONDecodeError`. -/
def responseJson (content : List Nat) : Except PyExc JValue :=
  match utf8DecodeStrict content with
  | none => .error (.jsonDecodeError "Expecting value")
  | some cs =>
    match jsonParse cs with
    | some v => .ok v
    | none => .error (.jsonDecodeError "Expecting value")

/-- Modelled from the spec (sections 3 and 4.2): `Station.from_geojson_feature`
of the missing `models.py`.  The fixed field mapping reads the id, optional
name and the three availability counts from the feature's `properties` and
the coordinates (`[lon, lat]`) from the feature's `geometry`; the exact
source field names are not in `src`, so property names matching the record
fields are used, with `station_id` for the id. -/
def Station.fromGeojsonFeature (feature : JValue) : Station :=
  let props := jGetD feature "properties" (.obj [])
  let geom := jGetD feature "geometry" (.obj [])
  let coords :=
    match jGetD geom "coordinates" (.arr []) with
    | .arr l => l
    | _ => []
  let asInt : JValue → Int := fun v =>
    match v with
    | .num n => n
    | _ => 0
  { id := pythonStr (jGetD props "station_id" (.str ""))
    name :=
      match jGetD props "name" .null with
      | .str s => some s
      | _ => none
    ebikes_available := asInt (jGetD props "ebikes_available" (.num 0))
    bikes_available := asInt (jGetD props "bikes_available" (.num 0))
    docks_available := asInt (jGetD props "docks_available" (.num 0))
    lon := asInt (coords.getD 0 (.num 0))
    lat := asInt (coords.getD 1 (.num 0)) }

/-- Python iteration over `data.get("features", [])` (client.py line 180):
lists iterate their elements, strings their characters (as 1-character
strings), dicts their keys; every other value raises `TypeError`. -/
def featuresSeq : JValue → Except PyExc (List JValue)
  | .arr xs => .ok xs
  | .str s => .ok (s.toList.map (fun c => JValue.str (String.mk [c])))
  | .obj kvs => .ok (kvs.map (fun kv => JValue.str kv.fst))
  | _ => .error (.typeError "object is not iterable")

/-- The feature loop of `list_stations` (client.py lines 179-186): keep the
features whose `properties` carry `map_item_type == 1` and convert each
kept feature with `Station.from_geojson_feature`. -/
def stationsOfFeatures : List JValue → Except PyExc (List Station)
  | [] => .ok []
  | f :: fs =>
    match pyDictGetD f "properties" (.obj []) with
    | .error e => .error e
    | .ok props =>
      match pyDictGetD props "map_item_type" .null with
      | .error e => .error e
      | .ok disc =>
        match stationsOfFeatures fs with
        | .error e => .error e
        | .ok rest =>
          .ok (if pyEqOne disc then Station.fromGeojsonFeature f :: rest else rest)

/-- `list_stations` from the decoded payload on (client.py lines 176-186):
require `type == "FeatureCollection"` (else `BayWheelsError` reporting the
unexpected type), then run the feature loop.  A non-dict payload raises
`AttributeError` at `data.get`, which no handler catches. -/
def stationsFromData : JValue → Except BWError (List Station)
  | .obj kvs =>
    let ty := (lookupKV kvs "type").getD .null
    if isFCtype ty then
      match featuresSeq ((lookupKV kvs "features").getD (.arr [])) with
      | .error e => .error (.uncaught e)
      | .ok fs =>
        match stationsOfFeatures fs with
        | .error e => .error (.uncaught e)
        | .ok sts => .ok sts
    else .error (.bayWheelsError ("Unexpected response format: " ++ pythonStr ty))
  | _ => .error (.uncaught (.attributeError "object has no attribute get"))

/-- The nested-payload unwrap of `list_stations` (client.py lines 167-172):
if `"map_inventory_json"` is in the outer payload, `json.loads` its value,
otherwise use the outer payload directly. -/
def inventoryUnwrap (outer : JValue) : Except PyExc JValue :=
  match pyIn "map_inventory_json" outer with
  | .error e => .error e
  | .ok true =>
    match pySubscript outer "map_inventory_json" with
    | .error e => .error e
    | .ok v => pyJsonLoads v
  | .ok false => .ok outer

/-- `list_stations` after the outer payload has been decoded: the unwrap
step under the `except (json.JSONDecodeError, ValueError)` handler (which
wraps decode errors in `BayWheelsError`, client.py lines 173-174), then the
type check and feature loop. -/
def stationsAfterOuter (outer : JValue) : Except BWError (List Station) :=
  match inventoryUnwrap outer with
  | .error (.jsonDecodeError m) =>
    .error (.bayWheelsError ("Failed to parse station data: " ++ m))
  | .error e => .error (.uncaught e)
  | .ok data => stationsFromData data

/-- The response-parsing stage of `list_stations` (client.py lines 163-186)
on the raw body bytes. -/
def parseStationsBody (content : List Nat) : Except BWError (List Station) :=
  match responseJson content with
  | .error (.jsonDecodeError m) =>
    .error (.bayWheelsError ("Failed to parse station data: " ++ m))
  | .error e => .error (.uncaught e)
  | .ok outer => stationsAfterOuter outer

/-- `BayWheelsClient.list_stations` (client.py lines 138-186) as a function
of the stored access token and the response the transport would return.
The second component counts network requests issued: the guard raises
before any request, so it is 0 there and 1 once the request was posted. -/
def listStations (access_token : Option String) (resp : HttpResponse) :
    Except BWError (List Station) × Nat :=
  if access_token.isNone then
    (.error (.authenticationError "Must be authenticated to list stations"), 0)
  else if resp.status_code == 403 then
    (.error (.authenticationError "Access denied - token may be expired"), 1)
  else if resp.status_code != 200 then
    (.error (.bayWheelsError ("Failed to get stations: " ++ toString resp.status_code)), 1)
  else
    (parseStationsBody resp.content, 1)

/-- Ascending, disjoint code point ranges (inclusive) of the Unicode decimal
digits (category Nd): CPython's `str.isdecimal`, which is what `\\d` matches
in a `re` pattern over `str` (Unicode 14.0, as shipped with CPython 3.11) -/
def decimalRanges : List (Nat × Nat) := [
  (48, 57), (1632, 1641), (1776, 1785), (1984, 1993), (2406, 2415), (2534, 2543), (2662, 2671), (2790, 2799),
  (2918, 2927), (3046, 3055), (3174, 3183), (3302, 3311), (3430, 3439), (3558, 3567), (3664, 3673), (3792, 3801),
  (3872, 3881), (4160, 4169), (4240, 4249), (6112, 6121), (6160, 6169), (6470, 6479), (6608, 6617), (6784, 6793),
  (6800, 6809), (6992, 7001), (7088, 7097), (7232, 7241), (7248, 7257), (42528, 42537), (43216, 43225), (43264, 43273),
  (43472, 43481), (43504, 43513), (43600, 43609), (44016, 44025), (65296, 65305), (66720, 66729), (68912, 68921), (69734, 69743),
  (69872, 69881), (69942, 69951), (70096, 70105), (70384, 70393), (70736, 70745), (70864, 70873), (71248, 71257), (71360, 71369),
  (71472, 71481), (71904, 71913), (72016, 72025), (72784, 72793), (73040, 73049), (73120, 73129), (92768, 92777), (92864, 92873),
  (93008, 93017), (120782, 120831), (123200, 123209), (123632, 123641), (125264, 125273), (130032, 130041)]

/-- Ascending, disjoint code point ranges (inclusive) of the Unicode
alphanumeric characters: CPython's `isalpha or isdecimal or isdigit or
isnumeric`, which together with the underscore is what `\\w` matches in a
`re` pattern over `str` (Unicode 14.0, as shipped with CPython 3.11) -/
def wordAlnumRanges : List (Nat × Nat) := [
  (48, 57), (65, 90), (97, 122), (170, 170), (178, 179), (181, 181), (185, 186), (188, 190),
  (192, 214), (216, 246), (248, 705), (710, 721), (736, 740), (748, 748), (750, 750), (880, 884),
  (886, 887), (890, 893), (895, 895), (902, 902), (904, 906), (908, 908), (910, 929), (931, 1013),
  (1015, 1153), (1162, 1327), (1329, 1366), (1369, 1369), (1376, 1416), (1488, 1514), (1519, 1522), (1568, 1610),
  (1632, 1641), (1646, 1647), (1649, 1747), (1749, 1749), (1765, 1766), (1774, 1788), (1791, 1791), (1808, 1808),
  (1810, 1839), (1869, 1957), (1969, 1969), (1984, 2026), (2036, 2037), (2042, 2042), (2048, 2069), (2074, 2074),
  (2084, 2084), (2088, 2088), (2112, 2136), (2144, 2154), (2160, 2183), (2185, 2190), (2208, 2249), (2308, 2361),
  (2365, 2365), (2384, 2384), (2392, 2401), (2406, 2415), (2417, 2432), (2437, 2444), (2447, 2448), (2451, 2472),
  (2474, 2480), (2482, 2482), (2486, 2489), (2493, 2493), (2510, 2510), (2524, 2525), (2527, 2529), (2534, 2545),
  (2548, 2553), (2556, 2556), (2565, 2570), (2575, 2576), (2579, 2600), (2602, 2608), (2610, 2611), (2613, 2614),
  (2616, 2617), (2649, 2652), (2654, 2654), (2662, 2671), (2674, 2676), (2693, 2701), (2703, 2705), (2707, 2728),
  (2730, 2736), (2738, 2739), (2741, 2745), (2749, 2749), (2768, 2768), (2784, 2785), (2790, 2799), (2809, 2809),
  (2821, 2828), (2831, 2832), (2835, 2856), (2858, 2864), (2866, 2867), (2869, 2873), (2877, 2877), (2908, 2909),
  (2911, 2913), (2918, 2927), (2929, 2935), (2947, 2947), (2949, 2954), (2958, 2960), (2962, 2965), (2969, 2970),
  (2972, 2972), (2974, 2975), (2979, 2980), (2984, 2986), (2990, 3001), (3024, 3024), (3046, 3058), (3077, 3084),
  (3086, 3088), (3090, 3112), (3114, 3129), (3133, 3133), (3160, 3162), (3165, 3165), (3168, 3169), (3174, 3183),
  (3192, 3198), (3200, 3200), (3205, 3212), (3214, 3216), (3218, 3240), (3242, 3251), (3253, 3257), (3261, 3261),
  (3293, 3294), (3296, 3297), (3302, 3311), (3313, 3314), (3332, 3340), (3342, 3344), (3346, 3386), (3389, 3389),
  (3406, 3406), (3412, 3414), (3416, 3425), (3430, 3448), (3450, 3455), (3461, 3478), (3482, 3505), (3507, 3515),
  (3517, 3517), (3520, 3526), (3558, 3567), (3585, 3632), (3634, 3635), (3648, 3654), (3664, 3673), (3713, 3714),
  (3716, 3716), (3718, 3722), (3724, 3747), (3749, 3749), (3751, 3760), (3762, 3763), (3773, 3773), (3776, 3780),
  (3782, 3782), (3792, 3801), (3804, 3807), (3840, 3840), (3872, 3891), (3904, 3911), (3913, 3948), (3976, 3980),
  (4096, 4138), (4159, 4169), (4176, 4181), (4186, 4189), (4193, 4193), (4197, 4198), (4206, 4208), (4213, 4225),
  (4238, 4238), (4240, 4249), (4256, 4293), (4295, 4295), (4301, 4301), (4304, 4346), (4348, 4680), (4682, 4685),
  (4688, 4694), (4696, 4696), (4698, 4701), (4704, 4744), (4746, 4749), (4752, 4784), (4786, 4789), (4792, 4798),
  (4800, 4800), (4802, 4805), (4808, 4822), (4824, 4880), (4882, 4885), (4888, 4954), (4969, 4988), (4992, 5007),
  (5024, 5109), (5112, 5117), (5121, 5740), (5743, 5759), (5761, 5786), (5792, 5866), (5870, 5880), (5888, 5905),
  (5919, 5937), (5952, 5969), (5984, 5996), (5998, 6000), (6016, 6067), (6103, 6103), (6108, 6108), (6112, 6121),
  (6128, 6137), (6160, 6169), (6176, 6264), (6272, 6276), (6279, 6312), (6314, 6314), (6320, 6389), (6400, 6430),
  (6470, 6509), (6512, 6516), (6528, 6571), (6576, 6601), (6608, 6618), (6656, 6678), (6688, 6740), (6784, 6793),
  (6800, 6809), (6823, 6823), (6917, 6963), (6981, 6988), (6992, 7001), (7043, 7072), (7086, 7141), (7168, 7203),
  (7232, 7241), (7245, 7293), (7296, 7304), (7312, 7354), (7357, 7359), (7401, 7404), (7406, 7411), (7413, 7414),
  (7418, 7418), (7424, 7615), (7680, 7957), (7960, 7965), (7968, 8005), (8008, 8013), (8016, 8023), (8025, 8025),
  (8027, 8027), (8029, 8029), (8031, 8061), (8064, 8116), (8118, 8124), (8126, 8126), (8130, 8132), (8134, 8140),
  (8144, 8147), (8150, 8155), (8160, 8172), (8178, 8180), (8182, 8188), (8304, 8305), (8308, 8313), (8319, 8329),
  (8336, 8348), (8450, 8450), (8455, 8455), (8458, 8467), (8469, 8469), (8473, 8477), (8484, 8484), (8486, 8486),
  (8488, 8488), (8490, 8493), (8495, 8505), (8508, 8511), (8517, 8521), (8526, 8526), (8528, 8585), (9312, 9371),
  (9450, 9471), (10102, 10131), (11264, 11492), (11499, 11502), (11506, 11507), (11517, 11517), (11520, 11557), (11559, 11559),
  (11565, 11565), (11568, 11623), (11631, 11631), (11648, 11670), (11680, 11686), (11688, 11694), (11696, 11702), (11704, 11710),
  (11712, 11718), (11720, 11726), (11728, 11734), (11736, 11742), (11823, 11823), (12293, 12295), (12321, 12329), (12337, 12341),
  (12344, 12348), (12353, 12438), (12445, 12447), (12449, 12538), (12540, 12543), (12549, 12591), (12593, 12686), (12690, 12693),
  (12704, 12735), (12784, 12799), (12832, 12841), (12872, 12879), (12881, 12895), (12928, 12937), (12977, 12991), (13312, 19903),
  (19968, 42124), (42192, 42237), (42240, 42508), (42512, 42539), (42560, 42606), (42623, 42653), (42656, 42735), (42775, 42783),
  (42786, 42888), (42891, 42954), (42960, 42961), (42963, 42963), (42965, 42969), (42994, 43009), (43011, 43013), (43015, 43018),
  (43020, 43042), (43056, 43061), (43072, 43123), (43138, 43187), (43216, 43225), (43250, 43255), (43259, 43259), (43261, 43262),
  (43264, 43301), (43312, 43334), (43360, 43388), (43396, 43442), (43471, 43481), (43488, 43492), (43494, 43518), (43520, 43560),
  (43584, 43586), (43588, 43595), (43600, 43609), (43616, 43638), (43642, 43642), (43646, 43695), (43697, 43697), (43701, 43702),
  (43705, 43709), (43712, 43712), (43714, 43714), (43739, 43741), (43744, 43754), (43762, 43764), (43777, 43782), (43785, 43790),
  (43793, 43798), (43808, 43814), (43816, 43822), (43824, 43866), (43868, 43881), (43888, 44002), (44016, 44025), (44032, 55203),
  (55216, 55238), (55243, 55291), (63744, 64109), (64112, 64217), (64256, 64262), (64275, 64279), (64285, 64285), (64287, 64296),
  (64298, 64310), (64312, 64316), (64318, 64318), (64320, 64321), (64323, 64324), (64326, 64433), (64467, 64829), (64848, 64911),
  (64914, 64967), (65008, 65019), (65136, 65140), (65142, 65276), (65296, 65305), (65313, 65338), (65345, 65370), (65382, 65470),
  (65474, 65479), (65482, 65487), (65490, 65495), (65498, 65500), (65536, 65547), (65549, 65574), (65576, 65594), (65596, 65597),
  (65599, 65613), (65616, 65629), (65664, 65786), (65799, 65843), (65856, 65912), (65930, 65931), (66176, 66204), (66208, 66256),
  (66273, 66299), (66304, 66339), (66349, 66378), (66384, 66421), (66432, 66461), (66464, 66499), (66504, 66511), (66513, 66517),
  (66560, 66717), (66720, 66729), (66736, 66771), (66776, 66811), (66816, 66855), (66864, 66915), (66928, 66938), (66940, 66954),
  (66956, 66962), (66964, 66965), (66967, 66977), (66979, 66993), (66995, 67001), (67003, 67004), (67072, 67382), (67392, 67413),
  (67424, 67431), (67456, 67461), (67463, 67504), (67506, 67514), (67584, 67589), (67592, 67592), (67594, 67637), (67639, 67640),
  (67644, 67644), (67647, 67669), (67672, 67702), (67705, 67742), (67751, 67759), (67808, 67826), (67828, 67829), (67835, 67867),
  (67872, 67897), (67968, 68023), (68028, 68047), (68050, 68096), (68112, 68115), (68117, 68119), (68121, 68149), (68160, 68168),
  (68192, 68222), (68224, 68255), (68288, 68295), (68297, 68324), (68331, 68335), (68352, 68405), (68416, 68437), (68440, 68466),
  (68472, 68497), (68521, 68527), (68608, 68680), (68736, 68786), (68800, 68850), (68858, 68899), (68912, 68921), (69216, 69246),
  (69248, 69289), (69296, 69297), (69376, 69415), (69424, 69445), (69457, 69460), (69488, 69505), (69552, 69579), (69600, 69622),
  (69635, 69687), (69714, 69743), (69745, 69746), (69749, 69749), (69763, 69807), (69840, 69864), (69872, 69881), (69891, 69926),
  (69942, 69951), (69956, 69956), (69959, 69959), (69968, 70002), (70006, 70006), (70019, 70066), (70081, 70084), (70096, 70106),
  (70108, 70108), (70113, 70132), (70144, 70161), (70163, 70187), (70272, 70278), (70280, 70280), (70282, 70285), (70287, 70301),
  (70303, 70312), (70320, 70366), (70384, 70393), (70405, 70412), (70415, 70416), (70419, 70440), (70442, 70448), (70450, 70451),
  (70453, 70457), (70461, 70461), (70480, 70480), (70493, 70497), (70656, 70708), (70727, 70730), (70736, 70745), (70751, 70753),
  (70784, 70831), (70852, 70853), (70855, 70855), (70864, 70873), (71040, 71086), (71128, 71131), (71168, 71215), (71236, 71236),
  (71248, 71257), (71296, 71338), (71352, 71352), (71360, 71369), (71424, 71450), (71472, 71483), (71488, 71494), (71680, 71723),
  (71840, 71922), (71935, 71942), (71945, 71945), (71948, 71955), (71957, 71958), (71960, 71983), (71999, 71999), (72001, 72001),
  (72016, 72025), (72096, 72103), (72106, 72144), (72161, 72161), (72163, 72163), (72192, 72192), (72203, 72242), (72250, 72250),
  (72272, 72272), (72284, 72329), (72349, 72349), (72368, 72440), (72704, 72712), (72714, 72750), (72768, 72768), (72784, 72812),
  (72818, 72847), (72960, 72966), (72968, 72969), (72971, 73008), (73030, 73030), (73040, 73049), (73056, 73061), (73063, 73064),
  (73066, 73097), (73112, 73112), (73120, 73129), (73440, 73458), (73648, 73648), (73664, 73684), (73728, 74649), (74752, 74862),
  (74880, 75075), (77712, 77808), (77824, 78894), (82944, 83526), (92160, 92728), (92736, 92766), (92768, 92777), (92784, 92862),
  (92864, 92873), (92880, 92909), (92928, 92975), (92992, 92995), (93008, 93017), (93019, 93025), (93027, 93047), (93053, 93071),
  (93760, 93846), (93952, 94026), (94032, 94032), (94099, 94111), (94176, 94177), (94179, 94179), (94208, 100343), (100352, 101589),
  (101632, 101640), (110576, 110579), (110581, 110587), (110589, 110590), (110592, 110882), (110928, 110930), (110948, 110951), (110960, 111355),
  (113664, 113770), (113776, 113788), (113792, 113800), (113808, 113817), (119520, 119539), (119648, 119672), (119808, 119892), (119894, 119964),
  (119966, 119967), (119970, 119970), (119973, 119974), (119977, 119980), (119982, 119993), (119995, 119995), (119997, 120003), (120005, 120069),
  (120071, 120074), (120077, 120084), (120086, 120092), (120094, 120121), (120123, 120126), (120128, 120132), (120134, 120134), (120138, 120144),
  (120146, 120485), (120488, 120512), (120514, 120538), (120540, 120570), (120572, 120596), (120598, 120628), (120630, 120654), (120656, 120686),
  (120688, 120712), (120714, 120744), (120746, 120770), (120772, 120779), (120782, 120831), (122624, 122654), (123136, 123180), (123191, 123197),
  (123200, 123209), (123214, 123214), (123536, 123565), (123584, 123627), (123632, 123641), (124896, 124902), (124904, 124907), (124909, 124910),
  (124912, 124926), (124928, 125124), (125127, 125135), (125184, 125251), (125259, 125259), (125264, 125273), (126065, 126123), (126125, 126127),
  (126129, 126132), (126209, 126253), (126255, 126269), (126464, 126467), (126469, 126495), (126497, 126498), (126500, 126500), (126503, 126503),
  (126505, 126514), (126516, 126519), (126521, 126521), (126523, 126523), (126530, 126530), (126535, 126535), (126537, 126537), (126539, 126539),
  (126541, 126543), (126545, 126546), (126548, 126548), (126551, 126551), (126553, 126553), (126555, 126555), (126557, 126557), (126559, 126559),
  (126561, 126562), (126564, 126564), (126567, 126570), (126572, 126578), (126580, 126583), (126585, 126588), (126590, 126590), (126592, 126601),
  (126603, 126619), (126625, 126627), (126629, 126633), (126635, 126651), (127232, 127244), (130032, 130041), (131072, 173791), (173824, 177976),
  (177984, 178205), (178208, 183969), (183984, 191456), (194560, 195101), (196608, 201546)]

/-- Membership of a code point in an ascending list of disjoint inclusive
ranges (early exit once the ranges start above the code point). -/
def inRanges (n : Nat) : List (Nat × Nat) → Bool
  | [] => false
  | (lo, hi) :: rest => if n < lo then false else if n ≤ hi then true else inRanges n rest

/-- A regex `\d` character of Python `re` over `str`: a Unicode decimal
digit. -/
def isREDigit (c : Char) : Bool :=
  inRanges c.toNat decimalRanges

/-- A regex `\w` character of Python `re` over `str`: a Unicode
alphanumeric character or the underscore (CPython's `SRE_UNI_IS_WORD`). -/
def isWordChar (c : Char) : Bool :=
  c == '_' || inRanges c.toNat wordAlnumRanges

/-- Maximal runs of word characters of a character list, in order. -/
def wordRuns : List Char → List (List Char)
  | [] => []
  | c :: cs =>
    let rs := wordRuns cs
    if isWordChar c then
      match cs with
      | c2 :: _ =>
        if isWordChar c2 then
          match rs with
          | r :: rs2 => (c :: r) :: rs2
          | [] => [[c]]
        else [c] :: rs
      | [] => [[c]]
    else rs

/-- `re.search(r"\b(\d{15,20})\b", text)` (client.py line 267): the leftmost
maximal word-character run consisting solely of digits with length between
15 and 20 — word boundaries force the digit run to span a whole word run. -/
def findRideId (text : String) : Option String :=
  ((wordRuns text.toList).find? fun r =>
    r.all isREDigit && 15 ≤ r.length && r.length ≤ 20).map String.mk

/-- The reservation-parsing block of `create_reservation` inside the outer
`except Exception` handler (client.py lines 248-278): try JSON first; on
`json.JSONDecodeError` fall back to the lenient text decode and digit-run
scan; raise `ReservationError` when the extracted ride id is falsy. -/
def reservationInner (content : List Nat) (station_id : String) :
    Except PyExc Reservation :=
  match responseJson content with
  | .error (.jsonDecodeError _) =>
    (match findRideId (utf8DecodeIgnore content) with
     | some rid => .ok ⟨rid, .str "reserved", station_id⟩
     | none => .error (.reservationExc "Could not parse reservation response"))
  | .error e => .error e
  | .ok data =>
    match pyDictGetD data "ride_id" (.str "") with
    | .error e => .error e
    | .ok ridv =>
      match pyDictGetD data "status" (.str "reserved") with
      | .error e => .error e
      | .ok statv =>
        if pythonStr ridv == "" then
          .error (.reservationExc "Could not parse reservation response")
        else .ok ⟨pythonStr ridv, statv, station_id⟩

/-- The response-parsing stage of `create_reservation` (client.py lines
247-281): any exception of the inner block — including the `ReservationError`
raised there — is wrapped by the outer handler into
`ReservationError("Failed to parse reservation response: ...")`. -/
def parseReservation (content : List Nat) (station_id : String) :
    Except BWError Reservation :=
  match reservationInner content station_id with
  | .ok r => .ok r
  | .error e =>
    .error (.reservationError ("Failed to parse reservation response: " ++ pyExcText e))

/-- `BayWheelsClient.create_reservation` (client.py lines 209-281) as a
function of the stored access token, the call arguments and the response
the transport would return; the `Nat` counts network requests issued. -/
def createReservation (access_token : Option String) (station_id bike_type : String)
    (resp : HttpResponse) : Except BWError Reservation × Nat :=
  if access_token.isNone then
    (.error (.authenticationError "Must be authenticated to create reservations"), 0)
  else if resp.status_code == 403 then
    (.error (.authenticationError "Access denied - token may be expired"), 1)
  else if resp.status_code != 200 then
    (.error (.reservationError ("Failed to create reservation: " ++ toString resp.status_code)), 1)
  else
    (parseReservation resp.content station_id, 1)

/-- `BayWheelsClient.cancel_reservation` (client.py lines 283-306) as a
function of the stored access token, the ride id and the response the
transport would return; the `Nat` counts network requests issued. -/
def cancelReservation (access_token : Option String) (ride_id : String)
    (resp : HttpResponse) : Except BWError Unit × Nat :=
  if access_token.isNone then
    (.error (.authenticationError "Must be authenticated to cancel reservations"), 0)
  else if resp.status_code == 403 then
    (.error (.authenticationError "Access denied - token may be expired"), 1)
  else if resp.status_code != 200 then
    (.error (.reservationError ("Failed to cancel reservation: " ++ toString resp.status_code)), 1)
  else
    (.ok (), 1)

/-- The server's reply to a login attempt, as observed by the client:
a token, the email-verification-required signal, or another failure. -/
inductive LoginOutcome where
  | success (access_token : String)
  | emailRequired
  | failure (msg : String)

/-- Modelled from the spec (section 4.1) and `scripts/test_client.py`
line 47: the marker string embedded in the `AuthenticationError` message
when the server requires email verification. -/
def emailVerificationMarker : String := "Email verification required"

/-- Modelled from the spec (section 4.1): `AuthManager.login` of the
missing `auth.py`.  When the server signals that email verification is
required and no email was supplied, the call fails with an
`AuthenticationError` carrying the marker; on success the token is
returned; any other non-success condition fails with an
`AuthenticationError` describing the cause. -/
def login (phone_number code : String) (email : Option String)
    (serverReply : LoginOutcome) : Except BWError String :=
  match serverReply with
  | .success tok => .ok tok
  | .emailRequired =>
    (match email with
     | none =>
       .error (.authenticationError
         (emailVerificationMarker ++ " - retry login with an email address"))
     | some _ =>
       .error (.authenticationError "Login failed: email verification still required"))
  | .failure m => .error (.authenticationError ("Login failed: " ++ m))

/-- Boolean well-formedness of a single GeoJSON feature for the feature
loop: the feature is a dict and its `properties` member, when present, is a
dict (so neither `feature.get` nor `props.get` raises). -/
def featureWF : JValue → Bool
  | .obj kvs =>
    (match lookupKV kvs "properties" with
     | none => true
     | some (.obj _) => true
     | some _ => false)
  | _ => false

/-- The discriminator value of a feature: `properties`'s `map_item_type`,
`None` when absent (total form used to state the feature-loop theorem). -/
def discOf (f : JValue) : JValue :=
  jGetD (jGetD f "properties" (.obj [])) "map_item_type" .null

/-- C1: with no access token stored, each of the three authenticated
operations fails with `AuthenticationError` and issues zero network
requests, whatever response the transport would have returned. -/
theorem unauthenticated_ops_fail_before_network
    (resp : HttpResponse) (sid bt rid : String) :
    listStations none resp =
      (.error (.authenticationError "Must be authenticated to list stations"), 0) ∧
    createReservation none sid bt resp =
      (.error (.authenticationError "Must be authenticated to create reservations"), 0) ∧
    cancelReservation none rid resp =
      (.error (.authenticationError "Must be authenticated to cancel reservations"), 0) := by
  refine ⟨rfl, rfl, rfl⟩

/-- C2: on an authenticated client, a 403 response makes each operation
fail with `AuthenticationError` rather than its normal error type, and any
other non-200 status yields the operation's domain error
(`BayWheelsError` for stations, `ReservationError` for reservations)
carrying the status code. -/
theorem authenticated_ops_status_errors
    (t sid bt rid : String) (resp : HttpResponse) :
    (resp.status_code = 403 →
      (listStations (some t) resp).1 =
        .error (.authenticationError "Access denied - token may be expired") ∧
      (createReservation (some t) sid bt resp).1 =
        .error (.authenticationError "Access denied - token may be expired") ∧
      (cancelReservation (some t) rid resp).1 =
        .error (.authenticationError "Access denied - token may be expired")) ∧
    (resp.status_code ≠ 403 → resp.status_code ≠ 200 →
      (listStations (some t) resp).1 =
        .error (.bayWheelsError ("Failed to get stations: " ++ toString resp.status_code)) ∧
      (createReservation (some t) sid bt resp).1 =
        .error (.reservationError ("Failed to create reservation: " ++ toString resp.status_code)) ∧
      (cancelReservation (some t) rid resp).1 =
        .error (.reservationError ("Failed to cancel reservation: " ++ toString resp.status_code))) := by
  constructor
  · intro h403
    simp [listStations, createReservation, cancelReservation, h403]
  · intro h403 h200
    simp [listStations, createReservation, cancelReservation, h403, h200]

/-- Witness for C2 at status 403 and status 500. -/
theorem authenticated_ops_status_errors_witness :
    ((listStations (some "tok") ⟨403, []⟩).1 =
      .error (.authenticationError "Access denied - token may be expired")) ∧
    ((createReservation (some "tok") "st1" "ebike" ⟨500, []⟩).1 =
      .error (.reservationError ("Failed to create reservation: " ++ toString (500 : Nat)))) :=
  ⟨((authenticated_ops_status_errors "tok" "st1" "ebike" "r1" ⟨403, []⟩).1 rfl).1,
   ((authenticated_ops_status_errors "tok" "st1" "ebike" "r1" ⟨500, []⟩).2
     (by decide) (by decide)).2.1⟩

/-- C3: parsing is invariant under the upstream double-encoding — for a
valid `FeatureCollection` object `obj kvs` and any string `t` that
`json.loads` decodes to it, the wrapper payload whose `map_inventory_json`
field holds `t` parses to exactly the same result as the collection
received directly. -/
theorem stations_double_encoding_invariant
    (t : String) (kvs : List (String × JValue))
    (h1 : jsonParse t.toList = some (.obj kvs))
    (hty : lookupKV kvs "type" = some (.str "FeatureCollection"))
    (hnw : lookupKV kvs "map_inventory_json" = none) :
    stationsAfterOuter (.obj [("map_inventory_json", .str t)]) =
      stationsAfterOuter (.obj kvs) := by
  simp only [String.toList] at h1
  simp [stationsAfterOuter, inventoryUnwrap, pyIn, pySubscript, pyJsonLoads,
    lookupKV, h1, hnw]

/-- Witness for C3: a concrete double-encoded collection parses exactly as
the directly received collection, and both succeed. -/
theorem stations_double_encoding_invariant_witness :
    (stationsAfterOuter (.obj [("map_inventory_json",
        .str "\x7b\"type\": \"FeatureCollection\", \"features\": []\x7d")]) =
      stationsAfterOuter (.obj [("type", .str "FeatureCollection"), ("features", .arr [])])) ∧
    stationsAfterOuter (.obj [("type", .str "FeatureCollection"), ("features", .arr [])]) =
      .ok [] :=
  ⟨stations_double_encoding_invariant
      "\x7b\"type\": \"FeatureCollection\", \"features\": []\x7d"
      [("type", .str "FeatureCollection"), ("features", .arr [])] rfl rfl rfl,
   rfl⟩

/-- The feature loop keeps exactly the features whose discriminator equals
1, mapping each through the fixed conversion, provided every feature is a
dict with dict-or-absent `properties`. -/
theorem stationsOfFeatures_filter (fs : List JValue) (h : fs.all featureWF = true) :
    stationsOfFeatures fs =
      .ok ((fs.filter fun f => pyEqOne (discOf f)).map Station.fromGeojsonFeature) := by
  induction fs with
  | nil => rfl
  | cons f fs ih =>
    rw [List.all_cons, Bool.and_eq_true] at h
    obtain ⟨hf, hfs⟩ := h
    cases f with
    | obj kvs =>
      cases hp : lookupKV kvs "properties" with
      | none =>
        simp only [stationsOfFeatures, pyDictGetD, hp, ih hfs, discOf, jGetD,
          List.filter_cons, Option.getD]
        split <;> simp
      | some v =>
        cases v with
        | obj pkvs =>
          simp only [stationsOfFeatures, pyDictGetD, hp, ih hfs, discOf, jGetD,
            List.filter_cons, Option.getD]
          split <;> simp
        | null => simp [featureWF, hp] at hf
        | bool b => simp [featureWF, hp] at hf
        | num n => simp [featureWF, hp] at hf
        | fnum m e => simp [featureWF, hp] at hf
        | fnan => simp [featureWF, hp] at hf
        | finf ng => simp [featureWF, hp] at hf
        | str s => simp [featureWF, hp] at hf
        | arr xs => simp [featureWF, hp] at hf
    | null => simp [featureWF] at hf
    | bool b => simp [featureWF] at hf
    | num n => simp [featureWF] at hf
    | fnum m e => simp [featureWF] at hf
    | fnan => simp [featureWF] at hf
    | finf ng => simp [featureWF] at hf
    | str s => simp [featureWF] at hf
    | arr xs => simp [featureWF] at hf

/-- C4: for a decoded `FeatureCollection` whose features are well-formed,
station parsing returns exactly the features whose properties carry
`map_item_type == 1`, each converted via the fixed field mapping, and
excludes every feature with any other discriminator. -/
theorem stations_keep_only_discriminator_one
    (kvs : List (String × JValue)) (fs : List JValue)
    (hty : lookupKV kvs "type" = some (.str "FeatureCollection"))
    (hfs : lookupKV kvs "features" = some (.arr fs))
    (hwf : fs.all featureWF = true) :
    stationsFromData (.obj kvs) =
      .ok ((fs.filter fun f => pyEqOne (discOf f)).map Station.fromGeojsonFeature) := by
  simp [stationsFromData, hty, hfs, isFCtype, featuresSeq,
    stationsOfFeatures_filter fs hwf]

/-- Witness for C4: a collection with 3 features — two with discriminator 1
and one with discriminator 2 — yields exactly the 2 station-type features. -/
theorem stations_keep_only_discriminator_one_witness :
    stationsFromData (.obj
      [("type", .str "FeatureCollection"),
       ("features", .arr
         [.obj [("properties", .obj [("map_item_type", .num 1), ("station_id", .str "a")])],
          .obj [("properties", .obj [("map_item_type", .num 2)])],
          .obj [("properties", .obj [("map_item_type", .num 1), ("station_id", .str "b")])]])]) =
      .ok (([JValue.obj [("properties", .obj [("map_item_type", .num 1), ("station_id", .str "a")])],
             JValue.obj [("properties", .obj [("map_item_type", .num 2)])],
             JValue.obj [("properties", .obj [("map_item_type", .num 1), ("station_id", .str "b")])]].filter
               fun f => pyEqOne (discOf f)).map Station.fromGeojsonFeature) ∧
    (([JValue.obj [("properties", .obj [("map_item_type", .num 1), ("station_id", .str "a")])],
       JValue.obj [("properties", .obj [("map_item_type", .num 2)])],
       JValue.obj [("properties", .obj [("map_item_type", .num 1), ("station_id", .str "b")])]].filter
         fun f => pyEqOne (discOf f)).map Station.fromGeojsonFeature).length = 2 :=
  ⟨stations_keep_only_discriminator_one _ _ rfl rfl rfl, rfl⟩

/-- C7 counterexample: a body that decodes as JSON and contains a `ride_id`
field holding the empty string does not produce a reservation — the falsy
check fires and `create_reservation` raises `ReservationError`, so the
claim fails as stated for present-but-empty `ride_id`. -/
theorem reservation_empty_ride_id_errors :
    parseReservation (asciiBytes "\x7b\"ride_id\": \"\"\x7d") "st1" =
      .error (.reservationError
        "Failed to parse reservation response: Could not parse reservation response") := by
  rfl

/-- C7 (amended): for a body decoding to a dict whose `ride_id` field has a
non-empty `str()` conversion, `create_reservation` returns that conversion
(the value itself when it is a string) as `ride_id`, the payload's `status`
field (default `"reserved"` when absent) and the passed station id. -/
theorem reservation_json_path
    (content : List Nat) (sid : String) (kvs : List (String × JValue)) (v : JValue)
    (hjson : responseJson content = .ok (.obj kvs))
    (hrid : lookupKV kvs "ride_id" = some v)
    (hne : pythonStr v ≠ "") :
    parseReservation content sid =
      .ok ⟨pythonStr v, (lookupKV kvs "status").getD (.str "reserved"), sid⟩ := by
  simp [parseReservation, reservationInner, hjson, pyDictGetD, hrid, hne]

/-- Witness for C7 (amended): the payload
`{"ride_id": "123456789012345", "status": "reserved"}` yields
`ride_id == "123456789012345"`. -/
theorem reservation_json_path_witness :
    parseReservation
        (asciiBytes "\x7b\"ride_id\": \"123456789012345\", \"status\": \"reserved\"\x7d") "st1" =
      .ok ⟨pythonStr (.str "123456789012345"),
        (lookupKV [("ride_id", JValue.str "123456789012345"), ("status", JValue.str "reserved")]
          "status").getD (.str "reserved"), "st1"⟩ :=
  reservation_json_path
    (asciiBytes "\x7b\"ride_id\": \"123456789012345\", \"status\": \"reserved\"\x7d")
    "st1" [("ride_id", .str "123456789012345"), ("status", .str "reserved")]
    (.str "123456789012345") rfl rfl (by decide)

/-- C10: when the body decodes as JSON to a dict whose `ride_id` is falsy
(absent — the default is the empty string — or present and empty),
`create_reservation` raises `ReservationError`; no hypothesis about the
text's digit runs is needed, because the heuristic fallback runs only when
strict JSON decoding itself fails. -/
theorem reservation_json_no_fallback (content : List Nat) (sid : String)
    (kvs : List (String × JValue))
    (hjson : responseJson content = .ok (.obj kvs))
    (hfalsy : pythonStr ((lookupKV kvs "ride_id").getD (.str "")) = "") :
    parseReservation content sid =
      .error (.reservationError
        "Failed to parse reservation response: Could not parse reservation response") := by
  simp [parseReservation, reservationInner, hjson, pyDictGetD, hfalsy, pyExcText]

/-- Witness for C10: a JSON body with no `ride_id` whose raw text does
contain an 18-digit run — the run is ignored and the call still fails,
showing the fallback scan is not attempted on the JSON path. -/
theorem reservation_json_no_fallback_witness :
    (parseReservation (asciiBytes "\x7b\"note\": \"123456789012345678\"\x7d") "st1" =
      .error (.reservationError
        "Failed to parse reservation response: Could not parse reservation response")) ∧
    findRideId (utf8DecodeIgnore (asciiBytes "\x7b\"note\": \"123456789012345678\"\x7d")) =
      some "123456789012345678" :=
  ⟨reservation_json_no_fallback (asciiBytes "\x7b\"note\": \"123456789012345678\"\x7d")
      "st1" [("note", .str "123456789012345678")] rfl rfl,
   rfl⟩

/-- C9: when the server signals that email verification is required, a
`login` call without email fails with an `AuthenticationError` whose
message contains the escalation marker, and the subsequent call with the
same phone and code plus an email succeeds and returns the token. -/
theorem login_email_escalation
    (phone code email tok : String) (server : Option String → LoginOutcome)
    (h1 : server none = .emailRequired)
    (h2 : server (some email) = .success tok) :
    (∃ m, login phone code none (server none) = .error (.authenticationError m) ∧
      strContainsSub emailVerificationMarker m = true) ∧
    login phone code (some email) (server (some email)) = .ok tok := by
  rw [h1, h2]
  refine ⟨⟨emailVerificationMarker ++ " - retry login with an email address", rfl, ?_⟩, rfl⟩
  decide

/-- Witness for C9 with a concrete two-phase server. -/
theorem login_email_escalation_witness :
    (∃ m, login "+14155551234" "0000" none
        ((fun e : Option String => match e with
          | none => LoginOutcome.emailRequired
          | some _ => LoginOutcome.success "tok123") none) =
        .error (.authenticationError m) ∧
      strContainsSub emailVerificationMarker m = true) ∧
    login "+14155551234" "0000" (some "a@b.example")
        ((fun e : Option String => match e with
          | none => LoginOutcome.emailRequired
          | some _ => LoginOutcome.success "tok123") (some "a@b.example")) =
      .ok "tok123" :=
  login_email_escalation "+14155551234" "0000" "a@b.example" "tok123"
    (fun e : Option String => match e with
      | none => LoginOutcome.emailRequired
      | some _ => LoginOutcome.success "tok123") rfl rfl
